import Mathlib

/-!
Shallow embedding of the hooked-server backend (Express routes over Prisma,
Shopify and Cloudinary).  Database tables are lists of rows inside a `DB`
record; external services (the Shopify GraphQL and REST APIs, the Cloudinary
uploader, the HMAC primitive) enter the handlers as explicit inputs, with
fallible calls represented as `Except` values.  Each route handler of the
source is translated to a pure function from its request data, the service
environment and the database state to a response and the next database state.
JavaScript truthiness on optional strings and numbers (undefined, the empty
string and 0 are falsy) is made explicit through small helper functions.
-/

namespace HookedServer

/-- JavaScript truthiness of an optional string: undefined and "" are falsy. -/
def jsTruthy : Option String → Bool
  | none => false
  | some s => !(s == "")

/-- JavaScript a || b for an optional number: undefined and 0 are falsy. -/
def jsOrNat (a : Option Nat) (b : Nat) : Nat :=
  match a with
  | some n => if n == 0 then b else n
  | none => b

/-! ## Data model: the Prisma tables (Customer, Order, PurchasedItem, Product,
Media, Like) as row structures, and the whole store as a `DB` record.
Row identifiers generated by the database are modelled by the `nextId`
counter; Media primary keys are strings in the source (cuid), so a fresh
Media id is the decimal print of the counter. -/

structure Customer where
  id : Nat
  shopifyId : String
  firstName : String
  lastName : String
  email : String
deriving DecidableEq, Repr

structure Order where
  id : Nat
  shopifyId : String
  totalPrice : String
  currency : String
  customerId : Nat
deriving DecidableEq, Repr

structure PurchasedItem where
  id : Nat
  name : String
  shopifyProductId : String
  price : String
  orderId : Nat
deriving DecidableEq, Repr

structure Product where
  id : Nat
  shopifyId : String
  name : String
deriving DecidableEq, Repr

inductive MediaType
  | IMAGE
  | VIDEO
deriving DecidableEq, Repr

structure Media where
  id : String
  cloudinaryId : String
  url : String
  type : MediaType
  shopifyProductId : String
  productId : Option Nat
  customerId : Option Nat
  approved : Bool
  createdAt : Nat
deriving DecidableEq, Repr

structure Like where
  id : Nat
  customerId : Nat
  mediaId : String
deriving DecidableEq, Repr

structure DB where
  customers : List Customer
  orders : List Order
  purchasedItems : List PurchasedItem
  products : List Product
  media : List Media
  likes : List Like
  nextId : Nat
deriving DecidableEq, Repr

/-- Modelled from the spec: the Prisma schema file is not part of the source
set; the spec states that a Media record created by the submission workflow
has approved defaulting to false, and the prisma.media.create call in the
upload-and-assign route omits the approved field, so the schema default
applies.  This constant is that schema default. -/
def mediaApprovedDefault : Bool := false

/-! ## Ownership verification (services/shopify, part_000 lines 368 to 473).
The GraphQL customer-orders query and the REST order fetch are inputs: a
function from the requested id to an `Except`, where an error value stands
for a thrown transport or API exception.  The access token check that
precedes the upstream call throws outside the try block in the source, so
here it is the only `Except.error` outcome of the functions themselves. -/

structure OwnershipResult where
  verified : Bool
  orderId : Option String
  error : Option String
deriving DecidableEq, Repr

structure GqlLineItem where
  productId : Option String
deriving DecidableEq, Repr

structure GqlOrder where
  id : String
  lineItems : List GqlLineItem
deriving DecidableEq, Repr

structure GqlCustomerData where
  customer : Option (List GqlOrder)
deriving DecidableEq, Repr

structure RestLineItem where
  product_id : Nat
deriving DecidableEq, Repr

structure RestOrder where
  line_items : List RestLineItem
deriving DecidableEq, Repr

/-- Normalisation of a numeric id into the global-id form used by GraphQL. -/
def toGid (kind x : String) : String :=
  if x.startsWith "gid://" then x else "gid://shopify/" ++ kind ++ "/" ++ x

def verifyCustomerOwnsProduct (token : Option String) (customerId productId : String)
    (gqlCustomerOrders : String → Except String GqlCustomerData) :
    Except String OwnershipResult :=
  match token with
  | none => Except.error "No access token available"
  | some _ =>
    let customerGid := toGid "Customer" customerId
    let productGid := toGid "Product" productId
    match gqlCustomerOrders customerGid with
    | Except.error e => Except.ok ⟨false, none, some e⟩
    | Except.ok data =>
      match data.customer with
      | none => Except.ok ⟨false, none, none⟩
      | some orders =>
        match orders.find? (fun o =>
            o.lineItems.any (fun it => it.productId == some productGid)) with
        | some o => Except.ok ⟨true, some o.id, none⟩
        | none => Except.ok ⟨false, none, none⟩

def verifyOrderContainsProduct (token : Option String) (orderId productId : String)
    (restGetOrder : String → Except String (Option RestOrder)) :
    Except String Bool :=
  match token with
  | none => Except.error "No access token available. Please complete OAuth first."
  | some _ =>
    match restGetOrder orderId with
    | Except.error _ => Except.ok false
    | Except.ok none => Except.ok false
    | Except.ok (some order) =>
      Except.ok (order.line_items.any (fun it => toString it.product_id == productId))

/-! ## Cloudinary upload adapter (services/cloudinary lines 17 to 58).
Only the construction of the upload options object is local logic; the
actual streaming is external.  The spread of the caller options over the
defaults, the filter switch, and the delete of the filter key inside the
if-branch are reproduced exactly. -/

structure Transformation where
  effect : String
deriving DecidableEq, Repr

structure CloudinaryOptions where
  folder : Option String
  resource_type : Option String
  filter : Option String
deriving DecidableEq, Repr

structure UploadOptions where
  resource_type : String
  folder : String
  transformation : Option (List Transformation)
  filter : Option String
deriving DecidableEq, Repr

def buildUploadOptions (options : CloudinaryOptions) : UploadOptions :=
  let uploadOptions : UploadOptions :=
    { resource_type := options.resource_type.getD "auto",
      folder := options.folder.getD "hoop_community_uploads",
      transformation := none,
      filter := options.filter }
  if jsTruthy options.filter && !(options.filter == some "none") then
    let transformation : List Transformation :=
      match options.filter with
      | some "sepia" => [⟨"sepia"⟩]
      | some "bw" => [⟨"blackwhite"⟩]
      | some "retro" => [⟨"sepia:50"⟩, ⟨"vignette:50"⟩]
      | _ => []
    let withEffects :=
      if 0 < transformation.length then
        { uploadOptions with transformation := some transformation }
      else uploadOptions
    { withEffects with filter := none }
  else uploadOptions

/-! ## Service environment for the route handlers. -/

structure CloudinaryResult where
  public_id : String
  secure_url : String
  resource_type : String
deriving DecidableEq, Repr

structure ShopifyProduct where
  title : String
deriving DecidableEq, Repr

structure Env where
  token : Option String
  customerSecret : Option String
  hmacSHA256 : String → String → String
  gqlCustomerOrders : String → Except String GqlCustomerData
  restGetOrder : String → Except String (Option RestOrder)
  cloudinaryUpload : UploadOptions → Except String CloudinaryResult
  getProduct : Except String (Option ShopifyProduct)
  now : Nat

/-- HMAC signature check (routes/shopify lines 26 to 39): with no configured
secret the check is skipped and reports success; otherwise the supplied
signature must equal the hex HMAC-SHA256 of the customer id. -/
def verifyShopifySignature (env : Env) (customerId signature : String) : Bool :=
  if !(jsTruthy env.customerSecret) then true
  else env.hmacSHA256 (env.customerSecret.getD "") customerId == signature

/-! ## POST /shopify/upload-and-assign (routes/shopify lines 102 to 238). -/

structure UploadRequest where
  productId : Option String
  customerId : Option String
  signature : Option String
  orderId : Option String
  filter : Option String
  file : Bool
deriving DecidableEq, Repr

inductive UploadResponse
  | badRequest (msg : String)
  | invalidSignature
  | forbidden (msg : String)
  | authRequired
  | serverError (msg : String)
  | created (media : Media)
deriving DecidableEq, Repr

structure UploadOut where
  response : UploadResponse
  db : DB
  uploadAttempted : Bool
deriving DecidableEq, Repr

/-- The Prisma customer relation of an order row. -/
def relatedCustomer (db : DB) (o : Order) : Option Customer :=
  db.customers.find? (fun c => c.id == o.customerId)

/-- Steps 2 to 4 of the handler, shared by both authorisation branches:
file presence check, Cloudinary upload, lazy product creation, Media row
creation.  The getProduct fetch and the product create sit in one inner
try/catch in the source, so one `Except` covers both. -/
def mediaCreationPhase (env : Env) (req : UploadRequest) (productId : String)
    (dbCustomer : Option Customer) (db : DB) : UploadOut :=
  if !req.file then ⟨.badRequest "No file uploaded.", db, false⟩
  else
    match env.cloudinaryUpload (buildUploadOptions
        ⟨some "hoop_community", some "auto", req.filter⟩) with
    | Except.error e => ⟨.serverError e, db, true⟩
    | Except.ok uploadResult =>
      let (dbProduct, db1) :=
        match db.products.find? (fun p => p.shopifyId == productId) with
        | some p => (some p, db)
        | none =>
          match env.getProduct with
          | Except.error _ => (none, db)
          | Except.ok none => (none, db)
          | Except.ok (some sp) =>
            let p : Product := ⟨db.nextId, productId, sp.title⟩
            (some p, { db with products := db.products ++ [p], nextId := db.nextId + 1 })
      let m : Media :=
        { id := toString db1.nextId,
          cloudinaryId := uploadResult.public_id,
          url := uploadResult.secure_url,
          type := if uploadResult.resource_type == "video" then MediaType.VIDEO
            else MediaType.IMAGE,
          shopifyProductId := productId,
          productId := dbProduct.map Product.id,
          customerId := dbCustomer.map Customer.id,
          approved := mediaApprovedDefault,
          createdAt := env.now }
      ⟨.created m, { db1 with media := db1.media ++ [m], nextId := db1.nextId + 1 }, true⟩

def uploadAndAssign (env : Env) (req : UploadRequest) (db : DB) : UploadOut :=
  if !(jsTruthy req.productId) then ⟨.badRequest "No productId provided.", db, false⟩
  else if jsTruthy req.customerId then
    if jsTruthy req.signature &&
        !(verifyShopifySignature env (req.customerId.getD "") (req.signature.getD "")) then
      ⟨.invalidSignature, db, false⟩
    else
      match verifyCustomerOwnsProduct env.token (req.customerId.getD "")
          (req.productId.getD "") env.gqlCustomerOrders with
      | Except.error e => ⟨.serverError e, db, false⟩
      | Except.ok ownership =>
        if !ownership.verified then
          ⟨.forbidden "Ownership verification failed. You must purchase this product to post.",
            db, false⟩
        else
          let viaOrder : Option Customer :=
            match ownership.orderId with
            | some oid =>
              match db.orders.find? (fun o => o.shopifyId == oid) with
              | some o => relatedCustomer db o
              | none => none
            | none => none
          let dbCustomer : Option Customer :=
            match viaOrder with
            | some c => some c
            | none => db.customers.find? (fun c => c.shopifyId == req.customerId.getD "")
          mediaCreationPhase env req (req.productId.getD "") dbCustomer db
  else if jsTruthy req.orderId then
    match verifyOrderContainsProduct env.token (req.orderId.getD "")
        (req.productId.getD "") env.restGetOrder with
    | Except.error e => ⟨.serverError e, db, false⟩
    | Except.ok hasProduct =>
      if !hasProduct then
        ⟨.forbidden "This order does not contain the specified product.", db, false⟩
      else
        let dbCustomer : Option Customer :=
          match db.orders.find? (fun o => o.shopifyId == req.orderId.getD "") with
          | some o => relatedCustomer db o
          | none => none
        mediaCreationPhase env req (req.productId.getD "") dbCustomer db
  else ⟨.authRequired, db, false⟩

/-! ## GET /shopify/products/:productId/gallery (routes/shopify lines 447 to 494). -/

structure MediaView where
  url : String
  type : MediaType
deriving DecidableEq, Repr

inductive GalleryResponse
  | badRequest (msg : String)
  | invalidSignature
  | forbidden (msg : String)
  | serverError (msg : String)
  | authorized (media : List MediaView)
deriving DecidableEq, Repr

def galleryHandler (env : Env) (productId : String)
    (customerId signature : Option String) (db : DB) : GalleryResponse :=
  if !(jsTruthy customerId) then .badRequest "customerId is required"
  else if jsTruthy signature &&
      !(verifyShopifySignature env (customerId.getD "") (signature.getD "")) then
    .invalidSignature
  else
    match verifyCustomerOwnsProduct env.token (customerId.getD "") productId
        env.gqlCustomerOrders with
    | Except.error e => .serverError e
    | Except.ok ownership =>
      if !ownership.verified then
        .forbidden "Access denied. You must purchase this product to view the gallery."
      else
        .authorized ((db.media.filter
            (fun m => m.shopifyProductId == productId && m.approved)).map
          (fun m => ⟨m.url, m.type⟩))

/-! ## POST /shopify/media/:id/like (routes/shopify lines 496 to 553). -/

inductive LikeResponse
  | badRequest (msg : String)
  | notFound (msg : String)
  | toggled (liked : Bool) (likeCount : Nat)
deriving DecidableEq, Repr

def likeMedia (id : String) (customerId : Option String) (db : DB) :
    LikeResponse × DB :=
  if !(jsTruthy customerId) then (.badRequest "customerId is required", db)
  else
    let cid := customerId.getD ""
    match db.customers.find? (fun c => c.shopifyId == cid) with
    | none => (.notFound "Customer not found in DB. Make a purchase first.", db)
    | some dbCustomer =>
      match db.likes.find? (fun l =>
          l.customerId == dbCustomer.id && l.mediaId == id) with
      | some existingLike =>
        let db1 := { db with likes := db.likes.filter (fun l => !(l.id == existingLike.id)) }
        (.toggled false ((db1.likes.filter (fun l => l.mediaId == id)).length), db1)
      | none =>
        let newLike : Like := ⟨db.nextId, dbCustomer.id, id⟩
        let db1 := { db with likes := db.likes ++ [newLike], nextId := db.nextId + 1 }
        (.toggled true ((db1.likes.filter (fun l => l.mediaId == id)).length), db1)

/-! ## GET /shopify/products/:productId/media (routes/shopify lines 555 to 599).
The Prisma orderBy createdAt desc is modelled with a stable merge sort. -/

structure MediaListItem where
  media : Media
  likeCount : Nat
  likedByUser : Bool
deriving DecidableEq, Repr

def listProductMedia (productId : String) (customerId : Option String) (db : DB) :
    List MediaListItem :=
  let dbCustomerId : Option Nat :=
    if jsTruthy customerId then
      (db.customers.find? (fun c => c.shopifyId == customerId.getD "")).map Customer.id
    else none
  let rows := (db.media.filter
      (fun m => m.shopifyProductId == productId && m.approved)).mergeSort
    (fun a b => decide (b.createdAt ≤ a.createdAt))
  rows.map (fun m =>
    let mlikes := db.likes.filter (fun l => l.mediaId == m.id)
    { media := m,
      likeCount := mlikes.length,
      likedByUser := match dbCustomerId with
        | some cid => mlikes.any (fun l => l.customerId == cid)
        | none => false })

/-! ## POST /admin/toggle-approval/:id (routes/admin lines 152 to 169). -/

inductive ToggleResponse
  | notFound
  | ok (approved : Bool)
deriving DecidableEq, Repr

def toggleApproval (id : String) (db : DB) : ToggleResponse × DB :=
  match db.media.find? (fun m => m.id == id) with
  | none => (.notFound, db)
  | some media =>
    let updatedRows := db.media.map (fun m =>
      if m.id == id then { m with approved := !media.approved } else m)
    (.ok (!media.approved), { db with media := updatedRows })

/-! ## POST /webhook/newPaidOrder (part_001 lines 104 to 164). -/

structure WebhookCustomer where
  id : String
  first_name : String
  last_name : String
  email : String
deriving DecidableEq, Repr

structure WebhookLineItem where
  title : Option String
  name : Option String
  product_id : String
  quantity : Option Nat
  current_quantity : Option Nat
  price : String
deriving DecidableEq, Repr

structure WebhookPayload where
  id : String
  total_price : String
  currency : Option String
  shopMoneyCurrencyCode : Option String
  customer : WebhookCustomer
  line_items : List WebhookLineItem
deriving DecidableEq, Repr

/-- Effective unit count of a line item: quantity, else current_quantity,
else 1, through JavaScript falsiness (0 and undefined fall through). -/
def effQuantity (item : WebhookLineItem) : Nat :=
  jsOrNat item.quantity (jsOrNat item.current_quantity 1)

def itemName (item : WebhookLineItem) : String :=
  if jsTruthy item.title then item.title.getD "" else item.name.getD ""

def payloadCurrency (p : WebhookPayload) : String :=
  if jsTruthy p.currency then p.currency.getD ""
  else if jsTruthy p.shopMoneyCurrencyCode then p.shopMoneyCurrencyCode.getD ""
  else "MXN"

def mkPurchasedItem (rowId : Nat) (orderRowId : Nat) (item : WebhookLineItem) :
    PurchasedItem :=
  ⟨rowId, itemName item, item.product_id, item.price, orderRowId⟩

/-- The inner webhook loop: one PurchasedItem row created per unit. -/
def createUnits (orderRowId : Nat) (item : WebhookLineItem) : Nat → DB → DB
  | 0, d => d
  | Nat.succ k, d =>
    createUnits orderRowId item k
      { d with
        purchasedItems := d.purchasedItems ++ [mkPurchasedItem d.nextId orderRowId item],
        nextId := d.nextId + 1 }

/-- The outer webhook loop over the payload line items. -/
def createLineItems (orderRowId : Nat) (items : List WebhookLineItem) (d : DB) : DB :=
  items.foldl (fun acc item => createUnits orderRowId item (effQuantity item) acc) d

def upsertCustomer (c : WebhookCustomer) (db : DB) : Nat × DB :=
  match db.customers.find? (fun x => x.shopifyId == c.id) with
  | some existing =>
    let updatedRows := db.customers.map (fun x =>
      if x.shopifyId == c.id then
        { x with firstName := c.first_name, lastName := c.last_name, email := c.email }
      else x)
    (existing.id, { db with customers := updatedRows })
  | none =>
    (db.nextId,
      { db with
        customers := db.customers ++ [⟨db.nextId, c.id, c.first_name, c.last_name, c.email⟩],
        nextId := db.nextId + 1 })

inductive WebhookResponse
  | emptyBody
  | processed
deriving DecidableEq, Repr

def newPaidOrder (body : Option WebhookPayload) (db : DB) : WebhookResponse × DB :=
  match body with
  | none => (.emptyBody, db)
  | some p =>
    let (savedCustomerId, db1) := upsertCustomer p.customer db
    let savedOrder : Order :=
      ⟨db1.nextId, p.id, p.total_price, payloadCurrency p, savedCustomerId⟩
    let db2 := { db1 with orders := db1.orders ++ [savedOrder], nextId := db1.nextId + 1 }
    (.processed, createLineItems savedOrder.id p.line_items db2)

/-! ## Concrete material used by witnesses and counterexamples. -/

def emptyDB : DB := ⟨[], [], [], [], [], [], 100⟩

def sampleEnv : Env :=
  { token := some "tok",
    customerSecret := some "sec",
    hmacSHA256 := fun secret msg => secret ++ ":" ++ msg,
    gqlCustomerOrders := fun _ => Except.error "network down",
    restGetOrder := fun _ => Except.error "network down",
    cloudinaryUpload := fun _ => Except.error "host down",
    getProduct := Except.ok none,
    now := 0 }

/-- The 401-equivalent responses of the upload-and-assign handler. -/
def isAuthError : UploadResponse → Bool
  | UploadResponse.invalidSignature => true
  | UploadResponse.authRequired => true
  | _ => false

def dbKnownOther : DB :=
  ⟨[⟨1, "77", "Ana", "Lee", "ana@example.com"⟩], [], [], [], [], [⟨5, 1, "m1"⟩], 100⟩

/-- An environment whose GraphQL order history contains product 9. -/
def ownedEnv : Env :=
  { sampleEnv with
    gqlCustomerOrders := fun _ =>
      Except.ok ⟨some [⟨"gid://shopify/Order/1", [⟨some "gid://shopify/Product/9"⟩]⟩]⟩ }

/-- A store with one approved and one pending Media row for product 9, and an
approved row for another product. -/
def galleryDB : DB :=
  { emptyDB with media :=
      [⟨"m1", "c1", "u1", MediaType.IMAGE, "9", none, none, true, 1⟩,
        ⟨"m2", "c2", "u2", MediaType.VIDEO, "9", none, none, false, 2⟩,
        ⟨"m3", "c3", "u3", MediaType.IMAGE, "8", none, none, true, 3⟩] }

/-- An environment in which verification, the upload and the product fetch
all succeed. -/
def successEnv : Env :=
  { token := some "tok",
    customerSecret := none,
    hmacSHA256 := fun secret msg => secret ++ ":" ++ msg,
    gqlCustomerOrders := fun _ =>
      Except.ok ⟨some [⟨"gid://shopify/Order/1", [⟨some "gid://shopify/Product/9"⟩]⟩]⟩,
    restGetOrder := fun _ => Except.ok (some ⟨[⟨9⟩]⟩),
    cloudinaryUpload := fun _ => Except.ok ⟨"pub1", "https://cdn/x", "image"⟩,
    getProduct := Except.ok (some ⟨"Tee"⟩),
    now := 7 }

def uploadReq : UploadRequest := ⟨some "9", some "55", none, none, none, true⟩

/-- The Media row that the successful concrete upload run creates. -/
def createdMedia : Media :=
  ⟨"101", "pub1", "https://cdn/x", MediaType.IMAGE, "9", some 100, none, false, 7⟩

/-- The item the media listing serves on the concrete store. -/
def listedItem : MediaListItem :=
  ⟨⟨"m1", "c1", "u1", MediaType.IMAGE, "9", none, none, true, 1⟩, 0, false⟩

/-- A store holding a single approved Media row. -/
def toggleDB : DB :=
  { emptyDB with media := [⟨"m1", "c1", "u1", MediaType.IMAGE, "9", none, none, true, 1⟩] }

/-- Number of Like rows held for a media item (the likeCount served). -/
def mediaLikeCount (db : DB) (id : String) : Nat :=
  (db.likes.filter (fun l => l.mediaId == id)).length

/-- Number of Like rows held for one (customer, media) pair. -/
def pairLikeCount (db : DB) (custId : Nat) (id : String) : Nat :=
  (db.likes.filter (fun l => l.customerId == custId && l.mediaId == id)).length

/-- A store with one customer and one Like row for a different media item. -/
def likeDB : DB :=
  { emptyDB with
    customers := [⟨1, "55", "Ana", "Lee", "ana@example.com"⟩],
    likes := [⟨5, 1, "m2"⟩] }

/-- The paid-order payload of the specification scenario: one line item of
quantity 2. -/
def paidPayload : WebhookPayload :=
  { id := "1001", total_price := "50.00", currency := some "USD",
    shopMoneyCurrencyCode := none,
    customer := ⟨"55", "Ana", "Lee", "ana@example.com"⟩,
    line_items := [⟨some "Tee", none, "9", some 2, none, "25.00"⟩] }

/-- A payload whose single line item carries quantity 0. -/
def zeroQtyPayload : WebhookPayload :=
  { id := "1001", total_price := "50.00", currency := some "USD",
    shopMoneyCurrencyCode := none,
    customer := ⟨"55", "Ana", "Lee", "ana@example.com"⟩,
    line_items := [⟨some "Tee", none, "9", some 0, none, "25.00"⟩] }


/-! ## C1 -/

/-- C1 (amended): an upload-and-assign request that supplies a productId but
neither a customerId nor an orderId is answered with the 401-equivalent
authentication error, the database is unchanged (no Media row is created)
and no upload to the media host is attempted. -/
theorem c1_upload_no_auth_rejected (env : Env) (pid : String) (hpid : pid ≠ "")
    (filt : Option String) (file : Bool) (db : DB) :
    uploadAndAssign env ⟨some pid, none, none, none, filt, file⟩ db =
      ⟨UploadResponse.authRequired, db, false⟩ := by
  simp [uploadAndAssign, jsTruthy, hpid]

/-- C1 witness: the amended theorem applied at a concrete request. -/
theorem c1_witness :
    ("9" ≠ "") ∧
      uploadAndAssign sampleEnv ⟨some "9", none, none, none, none, false⟩ emptyDB =
        ⟨UploadResponse.authRequired, emptyDB, false⟩ :=
  ⟨by decide, c1_upload_no_auth_rejected sampleEnv "9" (by decide) none false emptyDB⟩

/-- C1 counterexample: a request with neither customerId nor orderId that
also lacks a productId is answered with the 400 validation error, not with a
401-equivalent authentication error, so the claim as stated fails (the rest
of the claim does hold there: nothing is uploaded, no Media row appears). -/
theorem c1_counterexample :
    (uploadAndAssign sampleEnv ⟨none, none, none, none, none, false⟩ emptyDB).response =
        UploadResponse.badRequest "No productId provided." ∧
      isAuthError
          (uploadAndAssign sampleEnv ⟨none, none, none, none, none, false⟩ emptyDB).response =
        false ∧
      (uploadAndAssign sampleEnv ⟨none, none, none, none, none, false⟩ emptyDB).db =
        emptyDB ∧
      (uploadAndAssign sampleEnv ⟨none, none, none, none, none, false⟩ emptyDB).uploadAttempted =
        false :=
  ⟨rfl, rfl, rfl, rfl⟩

/-! ## C2 -/

/-- C2: with an access token available, ownership verification never raises:
for every upstream outcome both verification functions return a plain result,
and when the upstream call fails (a thrown transport or API error) the
customer path reports verified false with the error message attached while
the order path reports false. -/
theorem c2_verification_never_throws (t cid pid oid pid2 e : String)
    (gql : String → Except String GqlCustomerData)
    (rest : String → Except String (Option RestOrder)) :
    (∃ r, verifyCustomerOwnsProduct (some t) cid pid gql = Except.ok r) ∧
      (verifyCustomerOwnsProduct (some t) cid pid (fun _ => Except.error e) =
        Except.ok ⟨false, none, some e⟩) ∧
      (∃ b, verifyOrderContainsProduct (some t) oid pid2 rest = Except.ok b) ∧
      (verifyOrderContainsProduct (some t) oid pid2 (fun _ => Except.error e) =
        Except.ok false) := by
  refine ⟨?_, rfl, ?_, rfl⟩
  · cases hg : gql (toGid "Customer" cid) with
    | error e2 =>
      exact ⟨⟨false, none, some e2⟩, by simp [verifyCustomerOwnsProduct, hg]⟩
    | ok data =>
      cases hc : data.customer with
      | none => exact ⟨⟨false, none, none⟩, by simp [verifyCustomerOwnsProduct, hg, hc]⟩
      | some orders =>
        cases hf : orders.find? (fun o =>
            o.lineItems.any (fun it => it.productId == some (toGid "Product" pid))) with
        | none =>
          exact ⟨⟨false, none, none⟩, by simp [verifyCustomerOwnsProduct, hg, hc, hf]⟩
        | some o =>
          exact ⟨⟨true, some o.id, none⟩, by simp [verifyCustomerOwnsProduct, hg, hc, hf]⟩
  · cases hr : rest oid with
    | error e2 => exact ⟨false, by simp [verifyOrderContainsProduct, hr]⟩
    | ok od =>
      cases od with
      | none => exact ⟨false, by simp [verifyOrderContainsProduct, hr]⟩
      | some order =>
        exact ⟨order.line_items.any (fun it => toString it.product_id == pid2),
          by simp [verifyOrderContainsProduct, hr]⟩

/-! ## C6 -/

/-- C6 (amended): the filter option maps sepia to a sepia effect, bw to the
monochrome blackwhite effect, retro to a sepia effect chained with a vignette
effect, and any other value (unknown names, the value none, the empty string,
or an absent filter) to no transform; the filter key is removed from the
forwarded upload parameters whenever a truthy filter other than the literal
value none was supplied, but a filter equal to the string none (or to the
falsy empty string) is forwarded to the media host unchanged. -/
theorem c6_filter_mapping (folder rtype : Option String) (s : String)
    (hs : s ≠ "sepia" ∧ s ≠ "bw" ∧ s ≠ "retro" ∧ s ≠ "none" ∧ s ≠ "") :
    (buildUploadOptions ⟨folder, rtype, some "sepia"⟩).transformation =
        some [⟨"sepia"⟩] ∧
      (buildUploadOptions ⟨folder, rtype, some "sepia"⟩).filter = none ∧
      (buildUploadOptions ⟨folder, rtype, some "bw"⟩).transformation =
        some [⟨"blackwhite"⟩] ∧
      (buildUploadOptions ⟨folder, rtype, some "bw"⟩).filter = none ∧
      (buildUploadOptions ⟨folder, rtype, some "retro"⟩).transformation =
        some [⟨"sepia:50"⟩, ⟨"vignette:50"⟩] ∧
      (buildUploadOptions ⟨folder, rtype, some "retro"⟩).filter = none ∧
      (buildUploadOptions ⟨folder, rtype, some s⟩).transformation = none ∧
      (buildUploadOptions ⟨folder, rtype, some s⟩).filter = none ∧
      (buildUploadOptions ⟨folder, rtype, none⟩).transformation = none ∧
      (buildUploadOptions ⟨folder, rtype, none⟩).filter = none ∧
      (buildUploadOptions ⟨folder, rtype, some ""⟩).transformation = none ∧
      (buildUploadOptions ⟨folder, rtype, some ""⟩).filter = some "" ∧
      (buildUploadOptions ⟨folder, rtype, some "none"⟩).transformation = none ∧
      (buildUploadOptions ⟨folder, rtype, some "none"⟩).filter = some "none" := by
  obtain ⟨h1, h2, h3, h4, h5⟩ := hs
  refine ⟨rfl, rfl, rfl, rfl, rfl, rfl, ?_, ?_, rfl, rfl, rfl, rfl, rfl, rfl⟩ <;>
  · simp only [buildUploadOptions, jsTruthy]
    split
    · split <;> simp_all
    · simp_all

/-- C6 witness: the amended mapping at concrete option values, with the
unknown filter instantiated to the string custom. -/
theorem c6_witness :
    (("custom" : String) ≠ "sepia" ∧ ("custom" : String) ≠ "bw" ∧
        ("custom" : String) ≠ "retro" ∧ ("custom" : String) ≠ "none" ∧
        ("custom" : String) ≠ "") ∧
      ((buildUploadOptions ⟨some "hoop_community", some "auto", some "sepia"⟩).transformation =
          some [⟨"sepia"⟩] ∧
        (buildUploadOptions ⟨some "hoop_community", some "auto", some "sepia"⟩).filter = none ∧
        (buildUploadOptions ⟨some "hoop_community", some "auto", some "bw"⟩).transformation =
          some [⟨"blackwhite"⟩] ∧
        (buildUploadOptions ⟨some "hoop_community", some "auto", some "bw"⟩).filter = none ∧
        (buildUploadOptions ⟨some "hoop_community", some "auto", some "retro"⟩).transformation =
          some [⟨"sepia:50"⟩, ⟨"vignette:50"⟩] ∧
        (buildUploadOptions ⟨some "hoop_community", some "auto", some "retro"⟩).filter = none ∧
        (buildUploadOptions ⟨some "hoop_community", some "auto", some "custom"⟩).transformation =
          none ∧
        (buildUploadOptions ⟨some "hoop_community", some "auto", some "custom"⟩).filter = none ∧
        (buildUploadOptions ⟨some "hoop_community", some "auto", none⟩).transformation = none ∧
        (buildUploadOptions ⟨some "hoop_community", some "auto", none⟩).filter = none ∧
        (buildUploadOptions ⟨some "hoop_community", some "auto", some ""⟩).transformation =
          none ∧
        (buildUploadOptions ⟨some "hoop_community", some "auto", some ""⟩).filter = some "" ∧
        (buildUploadOptions ⟨some "hoop_community", some "auto", some "none"⟩).transformation =
          none ∧
        (buildUploadOptions ⟨some "hoop_community", some "auto", some "none"⟩).filter =
          some "none") :=
  ⟨by decide,
    c6_filter_mapping (some "hoop_community") (some "auto") "custom"
      ⟨by decide, by decide, by decide, by decide, by decide⟩⟩

/-- C6 counterexample: with the filter option equal to the string none, the
filter key survives in the parameters sent to the media host, refuting the
part of the claim that says the filter key is never included. -/
theorem c6_counterexample :
    (buildUploadOptions ⟨some "hoop_community", some "auto", some "none"⟩).filter =
        some "none" ∧
      ¬((buildUploadOptions ⟨some "hoop_community", some "auto", some "none"⟩).filter =
        none) := by
  decide

/-! ## C10 -/

/-- C10: a like request whose customerId has no Customer row in the database
is answered with the 404 customer-not-found error and the database is
returned unchanged: no Like row is created or deleted and no shell Customer
row is created. -/
theorem c10_like_unknown_customer (id cid : String) (db : DB) (hcid : cid ≠ "")
    (h : db.customers.find? (fun c => c.shopifyId == cid) = none) :
    likeMedia id (some cid) db =
      (LikeResponse.notFound "Customer not found in DB. Make a purchase first.", db) := by
  simp [likeMedia, jsTruthy, hcid, h]

/-- C10 witness: the theorem applied to a store that has a different customer
and one existing Like row, which survives untouched. -/
theorem c10_witness :
    (("55" : String) ≠ "" ∧
        dbKnownOther.customers.find? (fun c => c.shopifyId == "55") = none) ∧
      likeMedia "m1" (some "55") dbKnownOther =
        (LikeResponse.notFound "Customer not found in DB. Make a purchase first.",
          dbKnownOther) :=
  ⟨⟨by decide, by decide⟩,
    c10_like_unknown_customer "m1" "55" dbKnownOther (by decide) (by decide)⟩

/-! ## C9 -/

/-- The media creation phase can only answer with a file-validation error, an
upstream failure or a created row, never with an authentication error. -/
theorem mediaCreationPhase_not_auth (env : Env) (req : UploadRequest) (pid : String)
    (c : Option Customer) (db : DB) :
    (mediaCreationPhase env req pid c db).response ≠ UploadResponse.invalidSignature ∧
      (mediaCreationPhase env req pid c db).response ≠ UploadResponse.authRequired := by
  unfold mediaCreationPhase
  split
  · exact ⟨by simp, by simp⟩
  · split
    · exact ⟨by simp, by simp⟩
    · split
      all_goals exact ⟨by simp, by simp⟩

/-- Once the customer branch of upload-and-assign passes the signature gate,
no authentication error can be produced any more. -/
theorem uploadAndAssign_customer_no_auth_error (env : Env) (req : UploadRequest) (db : DB)
    (hpid : jsTruthy req.productId = true)
    (hcid : jsTruthy req.customerId = true)
    (hgate : (jsTruthy req.signature &&
      !(verifyShopifySignature env (req.customerId.getD "") (req.signature.getD ""))) = false) :
    (uploadAndAssign env req db).response ≠ UploadResponse.invalidSignature ∧
      (uploadAndAssign env req db).response ≠ UploadResponse.authRequired := by
  unfold uploadAndAssign
  simp only [hpid, hcid, hgate, Bool.not_true, Bool.false_eq_true, if_false,
    Bool.true_eq_false, ite_false, ite_true]
  split
  · exact ⟨by simp, by simp⟩
  · split
    · exact ⟨by simp, by simp⟩
    · exact mediaCreationPhase_not_auth _ _ _ _ _

/-- C9: if a signature is supplied together with a customerId, the request
passes authentication exactly when the signature equals the HMAC-SHA256 of
the customerId under the configured secret: a mismatch yields the
401-equivalent invalid-signature error with no upload and no state change,
a match can never yield an authentication error, and with no configured
secret the check is skipped so every supplied signature is accepted. -/
theorem c9_signature_gate (env : Env) (s cid sig pid : String) (oid filt : Option String)
    (file : Bool) (db : DB)
    (hpid : pid ≠ "") (hcid : cid ≠ "") (hsig : sig ≠ "") (hs : s ≠ "") :
    (verifyShopifySignature { env with customerSecret := none } cid sig = true) ∧
      (verifyShopifySignature { env with customerSecret := some s } cid sig =
        (env.hmacSHA256 s cid == sig)) ∧
      (env.hmacSHA256 s cid ≠ sig →
        uploadAndAssign { env with customerSecret := some s }
            ⟨some pid, some cid, some sig, oid, filt, file⟩ db =
          ⟨UploadResponse.invalidSignature, db, false⟩) ∧
      (env.hmacSHA256 s cid = sig →
        (uploadAndAssign { env with customerSecret := some s }
              ⟨some pid, some cid, some sig, oid, filt, file⟩ db).response ≠
            UploadResponse.invalidSignature ∧
          (uploadAndAssign { env with customerSecret := some s }
              ⟨some pid, some cid, some sig, oid, filt, file⟩ db).response ≠
            UploadResponse.authRequired) ∧
      ((uploadAndAssign { env with customerSecret := none }
            ⟨some pid, some cid, some sig, oid, filt, file⟩ db).response ≠
          UploadResponse.invalidSignature ∧
        (uploadAndAssign { env with customerSecret := none }
            ⟨some pid, some cid, some sig, oid, filt, file⟩ db).response ≠
          UploadResponse.authRequired) := by
  refine ⟨by simp [verifyShopifySignature, jsTruthy],
    by simp [verifyShopifySignature, jsTruthy, hs], ?_, ?_, ?_⟩
  · intro hne
    have hv : verifyShopifySignature { env with customerSecret := some s } cid sig = false := by
      simp [verifyShopifySignature, jsTruthy, hs, hne]
    simp [uploadAndAssign, jsTruthy, hpid, hcid, hsig, hv]
  · intro heq
    have hv : verifyShopifySignature { env with customerSecret := some s } cid sig = true := by
      simp [verifyShopifySignature, jsTruthy, hs, heq]
    exact uploadAndAssign_customer_no_auth_error _ _ _
      (by simp [jsTruthy, hpid]) (by simp [jsTruthy, hcid]) (by simp [hv])
  · have hv : verifyShopifySignature { env with customerSecret := none } cid sig = true := by
      simp [verifyShopifySignature, jsTruthy]
    exact uploadAndAssign_customer_no_auth_error _ _ _
      (by simp [jsTruthy, hpid]) (by simp [jsTruthy, hcid]) (by simp [hv])

/-- C9 witness: the gate at a concrete environment, with both a mismatching
and a matching signature. -/
theorem c9_witness :
    (("9" : String) ≠ "" ∧ ("55" : String) ≠ "" ∧ ("bad" : String) ≠ "" ∧
        ("sec" : String) ≠ "") ∧
      (verifyShopifySignature { sampleEnv with customerSecret := none } "55" "bad" = true) ∧
      (verifyShopifySignature { sampleEnv with customerSecret := some "sec" } "55" "bad" =
        (sampleEnv.hmacSHA256 "sec" "55" == "bad")) ∧
      (sampleEnv.hmacSHA256 "sec" "55" ≠ "bad" →
        uploadAndAssign { sampleEnv with customerSecret := some "sec" }
            ⟨some "9", some "55", some "bad", none, none, false⟩ emptyDB =
          ⟨UploadResponse.invalidSignature, emptyDB, false⟩) ∧
      (sampleEnv.hmacSHA256 "sec" "55" = "bad" →
        (uploadAndAssign { sampleEnv with customerSecret := some "sec" }
              ⟨some "9", some "55", some "bad", none, none, false⟩ emptyDB).response ≠
            UploadResponse.invalidSignature ∧
          (uploadAndAssign { sampleEnv with customerSecret := some "sec" }
              ⟨some "9", some "55", some "bad", none, none, false⟩ emptyDB).response ≠
            UploadResponse.authRequired) ∧
      ((uploadAndAssign { sampleEnv with customerSecret := none }
            ⟨some "9", some "55", some "bad", none, none, false⟩ emptyDB).response ≠
          UploadResponse.invalidSignature ∧
        (uploadAndAssign { sampleEnv with customerSecret := none }
            ⟨some "9", some "55", some "bad", none, none, false⟩ emptyDB).response ≠
          UploadResponse.authRequired) :=
  ⟨⟨by decide, by decide, by decide, by decide⟩,
    c9_signature_gate sampleEnv "sec" "55" "bad" "9" none none false emptyDB
      (by decide) (by decide) (by decide) (by decide)⟩

/-! ## C7 -/

/-- C7: a gallery request that reaches ownership verification and passes it
is answered with authorized true together with exactly the approved Media
rows of the product, each projected to url and type; in particular with zero
approved rows the media list is empty. -/
theorem c7_gallery_exact (env : Env) (productId cid : String) (signature : Option String)
    (db : DB) (ow : OwnershipResult)
    (hcid : cid ≠ "")
    (hgate : (jsTruthy signature &&
      !(verifyShopifySignature env cid (signature.getD ""))) = false)
    (hv : verifyCustomerOwnsProduct env.token cid productId env.gqlCustomerOrders =
      Except.ok ow)
    (how : ow.verified = true) :
    galleryHandler env productId (some cid) signature db =
      GalleryResponse.authorized ((db.media.filter
          (fun m => m.shopifyProductId == productId && m.approved)).map
        (fun m => ⟨m.url, m.type⟩)) ∧
      (db.media.filter (fun m => m.shopifyProductId == productId && m.approved) = [] →
        galleryHandler env productId (some cid) signature db =
          GalleryResponse.authorized []) := by
  have hmain : galleryHandler env productId (some cid) signature db =
      GalleryResponse.authorized ((db.media.filter
          (fun m => m.shopifyProductId == productId && m.approved)).map
        (fun m => ⟨m.url, m.type⟩)) := by
    have hc : jsTruthy (some cid) = true := by simp [jsTruthy, hcid]
    simp [galleryHandler, hc, hgate, hv, how]
  exact ⟨hmain, fun he => by rw [hmain, he]; rfl⟩

/-- C7 witness: the theorem applied to the concrete store; exactly the single
approved row of product 9 is served. -/
theorem c7_witness :
    (("55" : String) ≠ "" ∧
        (jsTruthy none &&
          !(verifyShopifySignature ownedEnv "55" (Option.getD none ""))) = false ∧
        verifyCustomerOwnsProduct ownedEnv.token "55" "9" ownedEnv.gqlCustomerOrders =
          Except.ok ⟨true, some "gid://shopify/Order/1", none⟩ ∧
        (⟨true, some "gid://shopify/Order/1", none⟩ : OwnershipResult).verified = true) ∧
      (galleryHandler ownedEnv "9" (some "55") none galleryDB =
        GalleryResponse.authorized ((galleryDB.media.filter
            (fun m => m.shopifyProductId == "9" && m.approved)).map
          (fun m => ⟨m.url, m.type⟩)) ∧
        (galleryDB.media.filter (fun m => m.shopifyProductId == "9" && m.approved) = [] →
          galleryHandler ownedEnv "9" (some "55") none galleryDB =
            GalleryResponse.authorized [])) :=
  ⟨⟨by decide, by rfl, by rfl, by rfl⟩,
    c7_gallery_exact ownedEnv "9" "55" none galleryDB
      ⟨true, some "gid://shopify/Order/1", none⟩ (by decide) (by rfl) (by rfl) (by rfl)⟩

/-! ## C4 -/

/-- Shape of the media table after the creation phase: unchanged, or extended
by exactly one new row whose approved flag is the schema default false. -/
theorem mediaCreationPhase_media_shape (env : Env) (req : UploadRequest) (pid : String)
    (c : Option Customer) (db : DB) :
    (mediaCreationPhase env req pid c db).db.media = db.media ∨
      ∃ m, (mediaCreationPhase env req pid c db).db.media = db.media ++ [m] ∧
        m.approved = false := by
  unfold mediaCreationPhase
  split
  · exact Or.inl rfl
  · split
    · exact Or.inl rfl
    · split
      rename_i dbProduct db1 heq
      split at heq
      · cases heq
        exact Or.inr ⟨_, rfl, rfl⟩
      · split at heq
        · cases heq
          exact Or.inr ⟨_, rfl, rfl⟩
        · cases heq
          exact Or.inr ⟨_, rfl, rfl⟩
        · cases heq
          exact Or.inr ⟨_, rfl, rfl⟩

/-- Shape of the media table across the whole upload-and-assign handler. -/
theorem uploadAndAssign_media_shape (env : Env) (req : UploadRequest) (db : DB) :
    (uploadAndAssign env req db).db.media = db.media ∨
      ∃ m, (uploadAndAssign env req db).db.media = db.media ++ [m] ∧
        m.approved = false := by
  unfold uploadAndAssign
  split
  · exact Or.inl rfl
  · split
    · split
      · exact Or.inl rfl
      · split
        · exact Or.inl rfl
        · split
          · exact Or.inl rfl
          · exact mediaCreationPhase_media_shape _ _ _ _ _
    · split
      · split
        · exact Or.inl rfl
        · split
          · exact Or.inl rfl
          · exact mediaCreationPhase_media_shape _ _ _ _ _
      · exact Or.inl rfl

/-- C4: every Media row created by the submission workflow has approved
false at creation, for every uploader and environment; and the end-user read
paths (product gallery and product media listing) only ever serve rows whose
approved flag is true. -/
theorem c4_media_moderation_gate :
    (∀ (env : Env) (req : UploadRequest) (db : DB),
        ∀ m ∈ (uploadAndAssign env req db).db.media, m ∉ db.media → m.approved = false) ∧
      (∀ (env : Env) (pid : String) (cid sig : Option String) (db : DB)
          (L : List MediaView), galleryHandler env pid cid sig db =
            GalleryResponse.authorized L →
          ∀ v ∈ L, ∃ m, m ∈ db.media ∧ m.approved = true ∧ v = MediaView.mk m.url m.type) ∧
      (∀ (pid : String) (cid : Option String) (db : DB),
        ∀ it ∈ listProductMedia pid cid db,
          it.media ∈ db.media ∧ it.media.approved = true) := by
  refine ⟨?_, ?_, ?_⟩
  · intro env req db m hm hnot
    rcases uploadAndAssign_media_shape env req db with hsh | ⟨mnew, hsh, happ⟩
    · rw [hsh] at hm; exact absurd hm hnot
    · rw [hsh] at hm
      rcases List.mem_append.mp hm with h | h
      · exact absurd h hnot
      · rw [List.mem_singleton.mp h]; exact happ
  · intro env pid cid sig db L h v hv
    unfold galleryHandler at h
    split at h
    · cases h
    · split at h
      · cases h
      · split at h
        · cases h
        · rename_i ownership _
          split at h
          · cases h
          · cases h
            rcases List.mem_map.mp hv with ⟨m, hm, hview⟩
            rcases List.mem_filter.mp hm with ⟨hmem, hpred⟩
            refine ⟨m, hmem, ?_, hview.symm⟩
            have := (Bool.and_eq_true _ _).mp hpred
            exact this.2
  · intro pid cid db it hit
    unfold listProductMedia at hit
    rcases List.mem_map.mp hit with ⟨m, hm, hview⟩
    rw [List.mem_mergeSort] at hm
    rcases List.mem_filter.mp hm with ⟨hmem, hpred⟩
    have hp := (Bool.and_eq_true _ _).mp hpred
    rw [← hview]
    exact ⟨hmem, hp.2⟩

theorem listedItem_mem : listedItem ∈ listProductMedia "9" none galleryDB := by
  simp only [listProductMedia, jsTruthy]
  refine List.mem_map.mpr
    ⟨⟨"m1", "c1", "u1", MediaType.IMAGE, "9", none, none, true, 1⟩,
      List.mem_mergeSort.mpr (by decide), rfl⟩

/-- C4 witness: the three parts applied at concrete runs: the row created by
a successful upload carries approved false, and the rows served by the
gallery and the media listing on the concrete store are approved. -/
theorem c4_witness :
    (createdMedia ∈ (uploadAndAssign successEnv uploadReq emptyDB).db.media ∧
        createdMedia ∉ emptyDB.media ∧
        galleryHandler ownedEnv "9" (some "55") none galleryDB =
          GalleryResponse.authorized [⟨"u1", MediaType.IMAGE⟩] ∧
        listedItem ∈ listProductMedia "9" none galleryDB) ∧
      (createdMedia.approved = false ∧
        (∃ m, m ∈ galleryDB.media ∧ m.approved = true ∧
          MediaView.mk "u1" MediaType.IMAGE = MediaView.mk m.url m.type) ∧
        (listedItem.media ∈ galleryDB.media ∧ listedItem.media.approved = true)) :=
  ⟨⟨by decide, by decide, by rfl, listedItem_mem⟩,
    ⟨c4_media_moderation_gate.1 successEnv uploadReq emptyDB createdMedia
        (by decide) (by decide),
      c4_media_moderation_gate.2.1 ownedEnv "9" (some "55") none galleryDB
        [⟨"u1", MediaType.IMAGE⟩] (by rfl) ⟨"u1", MediaType.IMAGE⟩ (by decide),
      c4_media_moderation_gate.2.2 "9" none galleryDB listedItem listedItem_mem⟩⟩

/-! ## C5 -/

/-- In a list whose keys are pairwise distinct, two members with the same
key are the same element. -/
theorem eq_of_pairwise_key {α β : Type} (f : α → β) {l : List α}
    (hp : l.Pairwise (fun a b => f a ≠ f b)) {x y : α}
    (hx : x ∈ l) (hy : y ∈ l) (hf : f x = f y) : x = y := by
  induction l with
  | nil => cases hx
  | cons a t ih =>
    rcases List.pairwise_cons.mp hp with ⟨ha, ht⟩
    rcases List.mem_cons.mp hx with hxa | hxt
    · rcases List.mem_cons.mp hy with hya | hyt
      · rw [hxa, hya]
      · subst hxa
        exact absurd hf (ha y hyt)
    · rcases List.mem_cons.mp hy with hya | hyt
      · subst hya
        exact absurd hf.symm (ha x hxt)
      · exact ih ht hxt hyt

/-- C5: when a Media row with the requested id exists (Prisma ids are
unique, expressed by the pairwise hypothesis), the moderation toggle answers
with the flipped flag, the updated store holds exactly that row with its
approved flag negated while every other row survives unchanged, and running
the toggle twice returns the media table to its original state. -/
theorem c5_toggle_involution (id : String) (db : DB) (m : Media)
    (hfind : db.media.find? (fun x => x.id == id) = some m)
    (hnodup : db.media.Pairwise (fun a b => a.id ≠ b.id)) :
    (toggleApproval id db).1 = ToggleResponse.ok (!m.approved) ∧
      (toggleApproval id db).2.media.find? (fun x => x.id == id) =
        some { m with approved := !m.approved } ∧
      (∀ x ∈ db.media, x.id ≠ id → x ∈ (toggleApproval id db).2.media) ∧
      (toggleApproval id (toggleApproval id db).2).2.media = db.media := by
  have hm_mem : m ∈ db.media := List.mem_of_find?_eq_some hfind
  have hm_id : (m.id == id) = true :=
    @List.find?_some Media (fun x => x.id == id) m db.media hfind
  have hm_id2 : m.id = id := by simpa using hm_id
  have htog : ∀ (d : DB) (mm : Media),
      d.media.find? (fun x => x.id == id) = some mm →
      (toggleApproval id d).2.media = d.media.map
        (fun x => if x.id == id then { x with approved := !mm.approved } else x) := by
    intro d mm hf
    simp [toggleApproval, hf]
  have hfindmap : ∀ (mm : Media) (l : List Media),
      l.find? (fun x => x.id == id) = some mm →
      (l.map (fun x => if x.id == id then { x with approved := !mm.approved } else x)).find?
        (fun x => x.id == id) = some { mm with approved := !mm.approved } := by
    intro mm l hf
    have hmm : mm.id = id := by
      simpa using @List.find?_some Media (fun x => x.id == id) mm l hf
    have hpres : ((fun x : Media => x.id == id) ∘
        (fun x => if x.id == id then { x with approved := !mm.approved } else x)) =
        (fun x : Media => x.id == id) := by
      funext x
      by_cases h : x.id = id <;> simp [h]
    rw [List.find?_map, hpres, hf]
    simp [hmm]
  have h2 : (toggleApproval id db).2.media = db.media.map
      (fun x => if x.id == id then { x with approved := !m.approved } else x) :=
    htog db m hfind
  have hfind1 := hfindmap m db.media hfind
  refine ⟨by simp [toggleApproval, hfind], ?_, ?_, ?_⟩
  · rw [h2]
    exact hfind1
  · intro x hx hxid
    rw [h2]
    refine List.mem_map.mpr ⟨x, hx, ?_⟩
    simp [hxid]
  · have hfind2 : (toggleApproval id db).2.media.find? (fun x => x.id == id) =
        some { m with approved := !m.approved } := by
      rw [h2]; exact hfind1
    have h3 := htog (toggleApproval id db).2 { m with approved := !m.approved } hfind2
    rw [h3, h2, List.map_map]
    have hid : ∀ x ∈ db.media,
        ((fun y : Media =>
            if y.id == id then
              { y with approved := !({ m with approved := !m.approved }).approved }
            else y) ∘
          (fun x : Media =>
            if x.id == id then { x with approved := !m.approved } else x)) x = x := by
      intro x hx
      by_cases h : x.id = id
      · have hxm : x = m := eq_of_pairwise_key Media.id hnodup hx hm_mem
          (h.trans hm_id2.symm)
        subst hxm
        obtain ⟨xid, xc, xu, xt, xs, xp, xq, xa, xr⟩ := x
        have hxe : xid = id := h
        subst hxe
        simp [Function.comp]
      · simp [Function.comp, h]
    exact (List.map_congr_left hid).trans (List.map_id db.media)

/-- C5 witness: toggling the single row of the concrete store turns approved
off, and toggling twice restores the original table. -/
theorem c5_witness :
    (toggleDB.media.find? (fun x => x.id == "m1") =
        some ⟨"m1", "c1", "u1", MediaType.IMAGE, "9", none, none, true, 1⟩ ∧
        toggleDB.media.Pairwise (fun a b => a.id ≠ b.id)) ∧
      ((toggleApproval "m1" toggleDB).1 = ToggleResponse.ok false ∧
        (toggleApproval "m1" toggleDB).2.media.find? (fun x => x.id == "m1") =
          some ⟨"m1", "c1", "u1", MediaType.IMAGE, "9", none, none, false, 1⟩ ∧
        (∀ x ∈ toggleDB.media, x.id ≠ "m1" →
          x ∈ (toggleApproval "m1" toggleDB).2.media) ∧
        (toggleApproval "m1" (toggleApproval "m1" toggleDB).2).2.media =
          toggleDB.media) :=
  ⟨⟨by decide, by decide⟩,
    c5_toggle_involution "m1" toggleDB
      ⟨"m1", "c1", "u1", MediaType.IMAGE, "9", none, none, true, 1⟩
      (by decide) (by decide)⟩

/-! ## C8 -/

/-- A successful find? splits its list around the found element, and every
element before it fails the predicate. -/
theorem find?_split {α : Type} (p : α → Bool) {l : List α} {x : α}
    (h : l.find? p = some x) :
    ∃ l1 l2, l = l1 ++ x :: l2 ∧ (∀ y ∈ l1, p y = false) ∧ p x = true := by
  induction l with
  | nil => cases h
  | cons a t ih =>
    by_cases ha : p a = true
    · rw [List.find?_cons_of_pos t ha] at h
      cases h
      exact ⟨[], t, rfl, by simp, ha⟩
    · rw [List.find?_cons_of_neg t ha] at h
      rcases ih h with ⟨l1, l2, hl, h1, h2⟩
      refine ⟨a :: l1, l2, by rw [hl]; rfl, ?_, h2⟩
      intro y hy
      rcases List.mem_cons.mp hy with hya | hyt
      · rw [hya]; simpa using ha
      · exact h1 y hyt

/-- C8: for a customer present in the store (with the Prisma uniqueness of
Like ids and of (customer, media) pairs, and fresh id generation, stated as
hypotheses), two successive like calls return the likeCount of the media to
its original value, and starting from an unliked pair the first call stores
exactly one Like row while the second call removes it again instead of
storing a second row. -/
theorem c8_like_toggle (id cid : String) (db : DB) (cust : Customer)
    (hcid : cid ≠ "")
    (hcust : db.customers.find? (fun c => c.shopifyId == cid) = some cust)
    (hids : db.likes.Pairwise (fun a b => a.id ≠ b.id))
    (hfresh : ∀ l ∈ db.likes, l.id < db.nextId)
    (hpair : db.likes.Pairwise (fun a b =>
      ¬(a.customerId = b.customerId ∧ a.mediaId = b.mediaId))) :
    mediaLikeCount (likeMedia id (some cid) (likeMedia id (some cid) db).2).2 id =
        mediaLikeCount db id ∧
      (pairLikeCount db cust.id id = 0 →
        pairLikeCount (likeMedia id (some cid) db).2 cust.id id = 1 ∧
          pairLikeCount (likeMedia id (some cid) (likeMedia id (some cid) db).2).2
            cust.id id = 0) := by
  have hc : jsTruthy (some cid) = true := by simp [jsTruthy, hcid]
  have hlikeDelete : ∀ (d : DB) (e : Like),
      d.customers.find? (fun c => c.shopifyId == cid) = some cust →
      d.likes.find? (fun l => l.customerId == cust.id && l.mediaId == id) = some e →
      (likeMedia id (some cid) d).2 =
        { d with likes := d.likes.filter (fun l => !(l.id == e.id)) } := by
    intro d e hcu hf
    simp [likeMedia, hc, hcu, hf]
  have hlikeCreate : ∀ (d : DB),
      d.customers.find? (fun c => c.shopifyId == cid) = some cust →
      d.likes.find? (fun l => l.customerId == cust.id && l.mediaId == id) = none →
      (likeMedia id (some cid) d).2 =
        { d with
          likes := d.likes ++ [Like.mk d.nextId cust.id id],
          nextId := d.nextId + 1 } := by
    intro d hcu hf
    simp [likeMedia, hc, hcu, hf]
  cases hfind : db.likes.find? (fun l => l.customerId == cust.id && l.mediaId == id) with
  | none =>
    have hstep1 := hlikeCreate db hcust hfind
    have hfind2 : (db.likes ++ [Like.mk db.nextId cust.id id]).find?
        (fun l => l.customerId == cust.id && l.mediaId == id) =
        some (Like.mk db.nextId cust.id id) := by
      rw [List.find?_append, hfind]
      simp
    have hfilter : (db.likes ++ [Like.mk db.nextId cust.id id]).filter
        (fun l => !(l.id == db.nextId)) = db.likes := by
      rw [List.filter_append]
      have h1 : db.likes.filter (fun l => !(l.id == db.nextId)) = db.likes :=
        List.filter_eq_self.mpr (fun a ha => by simp [Nat.ne_of_lt (hfresh a ha)])
      have h2 : ([Like.mk db.nextId cust.id id] : List Like).filter
          (fun l => !(l.id == db.nextId)) = [] := by simp
      rw [h1, h2, List.append_nil]
    have hstep2 : (likeMedia id (some cid) (likeMedia id (some cid) db).2).2 =
        { db with likes := db.likes, nextId := db.nextId + 1 } := by
      rw [hstep1,
        hlikeDelete
          { db with
            likes := db.likes ++ [Like.mk db.nextId cust.id id],
            nextId := db.nextId + 1 }
          (Like.mk db.nextId cust.id id) hcust hfind2]
      dsimp only
      rw [hfilter]
    have hp0 : db.likes.filter
        (fun l => l.customerId == cust.id && l.mediaId == id) = [] :=
      List.filter_eq_nil_iff.mpr (List.find?_eq_none.mp hfind)
    refine ⟨?_, fun h0 => ⟨?_, ?_⟩⟩
    · rw [hstep2]
      rfl
    · rw [hstep1]
      show ((db.likes ++ [Like.mk db.nextId cust.id id]).filter
          (fun l => l.customerId == cust.id && l.mediaId == id)).length = 1
      rw [List.filter_append, hp0]
      simp
    · rw [hstep2]
      show (db.likes.filter
          (fun l => l.customerId == cust.id && l.mediaId == id)).length = 0
      rw [hp0]
      rfl
  | some e =>
    have hpe : (e.customerId == cust.id && e.mediaId == id) = true :=
      @List.find?_some Like
        (fun l => l.customerId == cust.id && l.mediaId == id) e db.likes hfind
    have hpe2 := (Bool.and_eq_true _ _).mp hpe
    have hec : e.customerId = cust.id := by simpa using hpe2.1
    have hem : e.mediaId = id := by simpa using hpe2.2
    rcases find?_split _ hfind with ⟨l1, l2, hdec, hl1, _⟩
    have hids2 : (l1 ++ e :: l2).Pairwise (fun a b => a.id ≠ b.id) := hdec ▸ hids
    rcases List.pairwise_append.mp hids2 with ⟨_, hcons, hcross⟩
    have hl1id : ∀ y ∈ l1, y.id ≠ e.id :=
      fun y hy => hcross y hy e (List.mem_cons_self e l2)
    have hl2id : ∀ y ∈ l2, e.id ≠ y.id := (List.pairwise_cons.mp hcons).1
    have hpair2 : (l1 ++ e :: l2).Pairwise (fun a b =>
        ¬(a.customerId = b.customerId ∧ a.mediaId = b.mediaId)) := hdec ▸ hpair
    have hl2pair : ∀ y ∈ l2,
        ¬(e.customerId = y.customerId ∧ e.mediaId = y.mediaId) :=
      (List.pairwise_cons.mp ((List.pairwise_append.mp hpair2).2.1)).1
    have hdel : db.likes.filter (fun l => !(l.id == e.id)) = l1 ++ l2 := by
      rw [hdec, List.filter_append, List.filter_cons]
      have he : (!(e.id == e.id)) = false := by simp
      rw [he]
      simp only [Bool.false_eq_true, if_false]
      have h1 : l1.filter (fun l => !(l.id == e.id)) = l1 :=
        List.filter_eq_self.mpr (fun a ha => by simp [hl1id a ha])
      have h2 : l2.filter (fun l => !(l.id == e.id)) = l2 :=
        List.filter_eq_self.mpr (fun a ha => by simp [(hl2id a ha).symm])
      rw [h1, h2]
    have hstep1 : (likeMedia id (some cid) db).2 = { db with likes := l1 ++ l2 } := by
      rw [hlikeDelete db e hcust hfind, hdel]
    have hfindn : (l1 ++ l2).find?
        (fun l => l.customerId == cust.id && l.mediaId == id) = none := by
      rw [List.find?_eq_none]
      intro x hx
      rcases List.mem_append.mp hx with hx1 | hx2
      · simp [hl1 x hx1]
      · intro hpx
        have hpx2 := (Bool.and_eq_true _ _).mp hpx
        have hxc : x.customerId = cust.id := by simpa using hpx2.1
        have hxm : x.mediaId = id := by simpa using hpx2.2
        exact hl2pair x hx2 ⟨hec.trans hxc.symm, hem.trans hxm.symm⟩
    have hstep2 : (likeMedia id (some cid) (likeMedia id (some cid) db).2).2 =
        { db with
          likes := (l1 ++ l2) ++ [Like.mk db.nextId cust.id id],
          nextId := db.nextId + 1 } := by
      rw [hstep1, hlikeCreate { db with likes := l1 ++ l2 } hcust hfindn]
    refine ⟨?_, fun h0 => ?_⟩
    · rw [hstep2]
      show (((l1 ++ l2) ++ [Like.mk db.nextId cust.id id]).filter
          (fun l => l.mediaId == id)).length =
        (db.likes.filter (fun l => l.mediaId == id)).length
      rw [hdec]
      simp only [List.filter_append, List.filter_cons, List.length_append]
      simp [hem]
      omega
    · exfalso
      have hmem : e ∈ db.likes.filter
          (fun l => l.customerId == cust.id && l.mediaId == id) :=
        List.mem_filter.mpr ⟨List.mem_of_find?_eq_some hfind, hpe⟩
      have hlen : 0 < (db.likes.filter
          (fun l => l.customerId == cust.id && l.mediaId == id)).length :=
        List.length_pos_of_mem hmem
      have h0n : (db.likes.filter
          (fun l => l.customerId == cust.id && l.mediaId == id)).length = 0 := h0
      omega

/-- C8 witness: the theorem applied to the concrete store at media m1: like
then unlike restores the likeCount, and the second call removes the row
rather than storing a second one. -/
theorem c8_witness :
    (("55" : String) ≠ "" ∧
        likeDB.customers.find? (fun c => c.shopifyId == "55") =
          some ⟨1, "55", "Ana", "Lee", "ana@example.com"⟩ ∧
        likeDB.likes.Pairwise (fun a b => a.id ≠ b.id) ∧
        (∀ l ∈ likeDB.likes, l.id < likeDB.nextId) ∧
        likeDB.likes.Pairwise (fun a b =>
          ¬(a.customerId = b.customerId ∧ a.mediaId = b.mediaId))) ∧
      (mediaLikeCount (likeMedia "m1" (some "55")
            (likeMedia "m1" (some "55") likeDB).2).2 "m1" =
          mediaLikeCount likeDB "m1" ∧
        (pairLikeCount likeDB (1 : Nat) "m1" = 0 →
          pairLikeCount (likeMedia "m1" (some "55") likeDB).2 (1 : Nat) "m1" = 1 ∧
            pairLikeCount (likeMedia "m1" (some "55")
              (likeMedia "m1" (some "55") likeDB).2).2 (1 : Nat) "m1" = 0)) :=
  ⟨⟨by decide, by decide, by decide, by decide, by decide⟩,
    c8_like_toggle "m1" "55" likeDB ⟨1, "55", "Ana", "Lee", "ana@example.com"⟩
      (by decide) (by decide) (by decide) (by decide) (by decide)⟩

/-! ## C3 -/

/-- Effect of the inner webhook loop: n fresh PurchasedItem rows are
appended, all referencing the given order row and carrying the line item
data; the orders table is untouched and the id counter only grows. -/
theorem createUnits_spec (o : Nat) (item : WebhookLineItem) :
    ∀ (n : Nat) (d : DB), ∃ block,
      (createUnits o item n d).purchasedItems = d.purchasedItems ++ block ∧
        block.length = n ∧
        (∀ r ∈ block, r.orderId = o ∧ r.shopifyProductId = item.product_id ∧
          r.price = item.price) ∧
        (createUnits o item n d).orders = d.orders ∧
        d.nextId ≤ (createUnits o item n d).nextId := by
  intro n
  induction n with
  | zero =>
    intro d
    exact ⟨[], by simp [createUnits], rfl, by simp, rfl, le_refl _⟩
  | succ k ih =>
    intro d
    rcases ih { d with
        purchasedItems := d.purchasedItems ++ [mkPurchasedItem d.nextId o item],
        nextId := d.nextId + 1 } with ⟨block, h1, h2, h3, h4, h5⟩
    refine ⟨mkPurchasedItem d.nextId o item :: block, ?_, ?_, ?_, ?_, ?_⟩
    · rw [show createUnits o item (k + 1) d = createUnits o item k { d with
          purchasedItems := d.purchasedItems ++ [mkPurchasedItem d.nextId o item],
          nextId := d.nextId + 1 } from rfl, h1]
      simp
    · simp [h2]
    · intro r hr
      rcases List.mem_cons.mp hr with hra | hrt
      · rw [hra]
        exact ⟨rfl, rfl, rfl⟩
      · exact h3 r hrt
    · exact h4
    · exact le_trans (Nat.le_succ _) h5

/-- Effect of the outer webhook loop: one block of rows per line item, the
block of an item holding exactly its effective quantity of rows. -/
theorem createLineItems_spec (o : Nat) :
    ∀ (items : List WebhookLineItem) (d : DB), ∃ blocks,
      (createLineItems o items d).purchasedItems =
          d.purchasedItems ++ blocks.flatten ∧
        List.Forall₂ (fun (block : List PurchasedItem) (item : WebhookLineItem) =>
          block.length = effQuantity item ∧
            ∀ r ∈ block, r.orderId = o ∧ r.shopifyProductId = item.product_id ∧
              r.price = item.price) blocks items ∧
        (createLineItems o items d).orders = d.orders ∧
        d.nextId ≤ (createLineItems o items d).nextId := by
  intro items
  induction items with
  | nil =>
    intro d
    exact ⟨[], by simp [createLineItems], List.Forall₂.nil, rfl, le_refl _⟩
  | cons item rest ih =>
    intro d
    have hstep : createLineItems o (item :: rest) d =
        createLineItems o rest (createUnits o item (effQuantity item) d) := rfl
    rcases createUnits_spec o item (effQuantity item) d with ⟨b1, hu1, hu2, hu3, hu4, hu5⟩
    rcases ih (createUnits o item (effQuantity item) d) with ⟨bs, hr1, hr2, hr3, hr4⟩
    refine ⟨b1 :: bs, ?_, List.Forall₂.cons ⟨hu2, hu3⟩ hr2, ?_, ?_⟩
    · rw [hstep, hr1, hu1]
      simp
    · rw [hstep, hr3, hu4]
    · rw [hstep]
      exact le_trans hu5 hr4

/-- The customer upsert never touches orders or purchased items and only
advances the id counter. -/
theorem upsertCustomer_spec (c : WebhookCustomer) (db : DB) :
    (upsertCustomer c db).2.orders = db.orders ∧
      (upsertCustomer c db).2.purchasedItems = db.purchasedItems ∧
      db.nextId ≤ (upsertCustomer c db).2.nextId := by
  unfold upsertCustomer
  split
  · exact ⟨rfl, rfl, le_refl _⟩
  · exact ⟨rfl, rfl, Nat.le_succ _⟩

theorem forall₂_lengths {α β : Type} {R : List α → β → Prop} {f : β → Nat}
    (hR : ∀ b x, R b x → b.length = f x) :
    ∀ {bs : List (List α)} {xs : List β}, List.Forall₂ R bs xs →
      bs.map List.length = xs.map f := by
  intro bs xs h
  induction h with
  | nil => rfl
  | cons hbx _ ih => simp [hR _ _ hbx, ih]

theorem forall₂_mem_left {α β : Type} {R : α → β → Prop} :
    ∀ {bs : List α} {xs : List β}, List.Forall₂ R bs xs →
      ∀ b ∈ bs, ∃ x, x ∈ xs ∧ R b x := by
  intro bs xs h
  induction h with
  | nil =>
    intro b hb
    cases hb
  | cons hbx _ ih =>
    intro b hb
    rcases List.mem_cons.mp hb with hba | hbt
    · exact ⟨_, List.mem_cons_self _ _, hba ▸ hbx⟩
    · rcases ih b hbt with ⟨x, hx, hRx⟩
      exact ⟨x, List.mem_cons_of_mem _ hx, hRx⟩

/-- C3 (amended): processing a paid-order webhook creates exactly one Order
row, and for each line item one block of PurchasedItem rows holding exactly
its effective quantity of rows, every row referencing that created order and
the shared product id and price; the effective quantity equals the supplied
quantity N whenever N is at least 1, so a line item of quantity N with N at
least 1 yields exactly N rows (quantity 0 or an absent quantity instead
falls back to current_quantity or to one row, through JavaScript
falsiness). -/
theorem c3_webhook_items (p : WebhookPayload) (db : DB)
    (hfresh : ∀ r ∈ db.purchasedItems, r.orderId < db.nextId) :
    ∃ orderRow blocks,
      (newPaidOrder (some p) db).2.orders = db.orders ++ [orderRow] ∧
        orderRow.shopifyId = p.id ∧
        (newPaidOrder (some p) db).2.purchasedItems =
          db.purchasedItems ++ List.flatten blocks ∧
        List.Forall₂ (fun (block : List PurchasedItem) (item : WebhookLineItem) =>
          block.length = effQuantity item ∧
            ∀ r ∈ block, r.orderId = orderRow.id ∧
              r.shopifyProductId = item.product_id ∧ r.price = item.price)
          blocks p.line_items ∧
        ((newPaidOrder (some p) db).2.purchasedItems.filter
            (fun r => r.orderId == orderRow.id)).length =
          (p.line_items.map effQuantity).sum ∧
        (∀ (item : WebhookLineItem) (N : Nat),
          item.quantity = some N → 1 ≤ N → effQuantity item = N) := by
  rcases hU : upsertCustomer p.customer db with ⟨scid, db1⟩
  have hspec := upsertCustomer_spec p.customer db
  rw [hU] at hspec
  rcases hspec with ⟨ho1, hp1, hn1⟩
  have hred : (newPaidOrder (some p) db).2 =
      createLineItems db1.nextId p.line_items
        { db1 with
          orders := db1.orders ++ [Order.mk db1.nextId p.id p.total_price
            (payloadCurrency p) scid],
          nextId := db1.nextId + 1 } := by
    simp [newPaidOrder, hU]
  rcases createLineItems_spec db1.nextId p.line_items
      { db1 with
        orders := db1.orders ++ [Order.mk db1.nextId p.id p.total_price
          (payloadCurrency p) scid],
        nextId := db1.nextId + 1 } with ⟨blocks, hc1, hc2, hc3, _⟩
  refine ⟨Order.mk db1.nextId p.id p.total_price (payloadCurrency p) scid,
    blocks, ?_, rfl, ?_, ?_, ?_, ?_⟩
  · rw [hred, hc3]
    dsimp only
    rw [ho1]
  · rw [hred, hc1]
    dsimp only
    rw [hp1]
  · exact hc2
  · rw [hred, hc1]
    dsimp only
    rw [hp1, List.filter_append, List.length_append]
    have hold : db.purchasedItems.filter
        (fun r => r.orderId == db1.nextId) = [] := by
      refine List.filter_eq_nil_iff.mpr (fun r hr => ?_)
      have : r.orderId < db1.nextId := lt_of_lt_of_le (hfresh r hr) hn1
      simp [Nat.ne_of_lt this]
    have hnew : (List.flatten blocks).filter
        (fun r => r.orderId == db1.nextId) = List.flatten blocks := by
      refine List.filter_eq_self.mpr (fun r hr => ?_)
      rcases List.mem_flatten.mp hr with ⟨b, hb, hrb⟩
      rcases forall₂_mem_left hc2 b hb with ⟨item, _, hitem⟩
      simp [(hitem.2 r hrb).1]
    rw [hold, hnew]
    have hlens : blocks.map List.length = p.line_items.map effQuantity :=
      forall₂_lengths (fun b x h => h.1) hc2
    rw [List.length_flatten, hlens]
    simp
  · intro item N hq hN
    simp [effQuantity, jsOrNat, hq]
    omega

/-- C3 witness: the amended theorem applied to the scenario payload on the
empty store. -/
theorem c3_witness :
    (∀ r ∈ emptyDB.purchasedItems, r.orderId < emptyDB.nextId) ∧
      (∃ orderRow blocks,
        (newPaidOrder (some paidPayload) emptyDB).2.orders =
            emptyDB.orders ++ [orderRow] ∧
          orderRow.shopifyId = paidPayload.id ∧
          (newPaidOrder (some paidPayload) emptyDB).2.purchasedItems =
            emptyDB.purchasedItems ++ List.flatten blocks ∧
          List.Forall₂ (fun (block : List PurchasedItem) (item : WebhookLineItem) =>
            block.length = effQuantity item ∧
              ∀ r ∈ block, r.orderId = orderRow.id ∧
                r.shopifyProductId = item.product_id ∧ r.price = item.price)
            blocks paidPayload.line_items ∧
          ((newPaidOrder (some paidPayload) emptyDB).2.purchasedItems.filter
              (fun r => r.orderId == orderRow.id)).length =
            (paidPayload.line_items.map effQuantity).sum ∧
          (∀ (item : WebhookLineItem) (N : Nat),
            item.quantity = some N → 1 ≤ N → effQuantity item = N)) :=
  ⟨by decide, c3_webhook_items paidPayload emptyDB (by decide)⟩

/-- C3 counterexample: the claim as stated fails at quantity 0: the webhook
then stores one PurchasedItem row, not zero, because the JavaScript
quantity fallback treats 0 as falsy. -/
theorem c3_counterexample :
    (zeroQtyPayload.line_items.map (fun it => it.quantity)) = [some 0] ∧
      (newPaidOrder (some zeroQtyPayload) emptyDB).2.purchasedItems.length = 1 ∧
      ¬((newPaidOrder (some zeroQtyPayload) emptyDB).2.purchasedItems.length = 0) := by
  refine ⟨rfl, rfl, by decide⟩

end HookedServer
